import Mathlib

/-!
Shallow embedding of the weather-alert service (Flask application).

The embedded code is the modular application: `app/routes/alert.py`,
`app/routes/notifications.py`, `app/services/weather_service.py`,
`app/services/email_service.py`, `app/services/db_service.py`.
External collaborators (the HTTP weather provider, the SMTP server, the
SQLite engine, the `email_validator` library) are modelled as oracles
passed to the pipeline; the control flow of the pipeline itself is translated
statement by statement from the source.

Modelling conventions:
* machine integers are `Int`/`Nat` (condition codes are small provider
  integers, no overflow is possible);
* a Python dict payload is modelled by a structure whose fields are
  `Option`s: a `none` field is an absent key, whose subscript raises
  `KeyError`.  Fields that are present are assumed to have the expected
  Python type (type-confusion `TypeError` paths are outside the model);
* timestamps (`datetime.now().isoformat()`) are modelled as a `Nat`
  supplied by the caller (`now`), ordered as the ISO strings are;
* functions that swallow exceptions and return `None` in every case are
  modelled as returning `Unit` to their caller, with the hidden side
  effect (message transmitted, row inserted) recorded in the outcome
  structure where the caller cannot see it — exactly the situation in
  the source, where the route cannot distinguish success from failure.
-/

namespace WeatherAlert

/-- The condition object of one forecast day, with keys text and code.
A `none` field models an absent key. -/
structure ConditionObj where
  text : Option String
  code : Option Int
  deriving DecidableEq, Repr

/-- The day object of one forecast day, holding the condition object. -/
structure DayObj where
  condition : Option ConditionObj
  deriving DecidableEq, Repr

/-- One entry of the forecastday array, holding the day object. -/
structure ForecastDayEntry where
  day : Option DayObj
  deriving DecidableEq, Repr

/-- The forecast object, holding the forecastday array. -/
structure ForecastObj where
  forecastday : Option (List ForecastDayEntry)
  deriving DecidableEq, Repr

/-- A non-empty JSON object returned by the provider, reduced to the keys the
pipeline reads.  A `none` forecast field models a non-empty payload that
lacks the forecast key. -/
structure WeatherPayload where
  forecast : Option ForecastObj
  deriving DecidableEq, Repr

/-- Outcome of the HTTP exchange inside `get_weather`, as seen by the route.
`failed` is `requests.RequestException` (the service returns `None`);
`emptyBody` is a successful response whose JSON body is the empty object,
which — like `None` — is falsy in Python and therefore taken by the falsy
test `if not weather:` of the route. -/
inductive FetchOutcome where
  | failed
  | emptyBody
  | payload (w : WeatherPayload)
  deriving DecidableEq, Repr

/-- The Python exceptions the forecast-extraction statements can raise:
`KeyError` on a missing dict key, `IndexError` on `forecastday[0]` of an
empty array. -/
inductive ExtractErr where
  | missingKey (k : String)
  | indexOutOfRange
  deriving DecidableEq, Repr

/-- Python `d[k]` on the modelled dicts: the value if the key is present,
`KeyError` otherwise. -/
def require (o : Option α) (e : ExtractErr) : Except ExtractErr α :=
  match o with
  | some a => .ok a
  | none => .error e

/-- The forecast-extraction statements of `app/routes/alert.py`:
`forecast = weather["forecast"]["forecastday"][0]["day"]`,
`weather_condition = forecast["condition"]["text"]`,
`forecast_code = forecast["condition"]["code"]`.
Returns the pair `(weather_condition, forecast_code)` or the first
exception raised. -/
def extractForecast (w : WeatherPayload) : Except ExtractErr (String × Int) := do
  let f ← require w.forecast (.missingKey "forecast")
  let days ← require f.forecastday (.missingKey "forecastday")
  let entry ← require (days.get? 0) .indexOutOfRange
  let d ← require entry.day (.missingKey "day")
  let c ← require d.condition (.missingKey "condition")
  let text ← require c.text (.missingKey "text")
  let code ← require c.code (.missingKey "code")
  pure (text, code)

/-- The query parameters of the provider URL built by `get_weather`
(`app/services/weather_service.py`):
`?key=...&q=LOCATION&days=2&aqi=no&alerts=no&lang=es`. -/
structure WeatherQuery where
  q : String
  days : Nat
  aqi : Bool
  alerts : Bool
  lang : String
  deriving DecidableEq, Repr

/-- The concrete query `get_weather` sends for a location: a two-day window,
no air quality, no alerts, Spanish text. -/
def weatherQuery (location : String) : WeatherQuery :=
  ⟨location, 2, false, false, "es"⟩

/-- Models `get_weather(location)`: builds the request for `location` and
performs it against the provider, modelled by the oracle `http`.  On
`requests.RequestException` the source logs and returns `None`
(`FetchOutcome.failed`). -/
def get_weather (http : WeatherQuery → FetchOutcome) (location : String) :
    FetchOutcome :=
  http (weatherQuery location)

/-- A row of the `notifications` table, as written by `save_notification`
(`db_service.py`).  The autoincrement `id` column is never read back by any
query in the source (`SELECT location, forecast, sent_at`), so it is not
modelled. -/
structure NotificationRecord where
  email : String
  location : String
  forecast : String
  sent_at : Nat
  deriving DecidableEq, Repr

/-- Models `send_email(to_email, subject, body)` (`email_service.py`): the
message is built and handed to `smtplib`; `smtplib.SMTPException` is caught
and only logged, so the function returns `None` to its caller in the failure
case exactly as in the success case.  `smtpOk` is the oracle for the SMTP
transaction; the returned `Bool` records whether the message was actually
transmitted — an effect the caller never sees (first component `Unit` is all
it gets back). -/
def send_email (smtpOk : Bool) (to_email subject body : String) : Unit × Bool :=
  ((), smtpOk)

/-- Models `save_notification(email, location, forecast)` (`db_service.py`):
inserts a row with `sent_at = datetime.now().isoformat()` (modelled by
`now`); `sqlite3.Error` is caught and only printed, so the function returns
`None` in both cases.  The second component is the table after the call:
grown by one row when the insert succeeded (`dbOk`), unchanged when the
engine raised. -/
def save_notification (dbOk : Bool) (store : List NotificationRecord)
    (now : Nat) (email location forecast : String) :
    Unit × List NotificationRecord :=
  ((), if dbOk then store ++ [⟨email, location, forecast, now⟩] else store)

/-- The severe-weather condition codes tested by the route:
`if forecast_code in [1186, 1189, 1192, 1195, 1063]:` — the set the spec
names `SEVERE_CODES`. -/
def SEVERE_CODES : List Int := [1186, 1189, 1192, 1195, 1063]

/-- The fixed subject of the warning email sent by the route. -/
def emailSubject : String := "ENTREGA RETRASADA POR CONDICIONES CLIMÁTICAS"

/-- The body template of the warning email built by the route around
`weather_condition`. -/
def emailBody (weather_condition : String) : String :=
  "Hola! Mañana se espera " ++ weather_condition ++
    ", lo que podría retrasar la entrega de tu paquete."

/-- The JSON body of a response of the `/alert` route: either the success
payload (HTTP 200) with `forecast_code`, `forecast_description`,
`buyer_notification`, or an error body with its HTTP status. -/
inductive AlertResponse where
  | success (forecast_code : Int) (forecast_description : String)
      (buyer_notification : Bool)
  | failure (status : Nat) (error : String)
  deriving DecidableEq, Repr

/-- The request body of the `/alert` route, a JSON object with keys
`"email"` and `"location"`; a `none` field models an absent key
(`data["email"]` raises `KeyError`). -/
structure AlertRequestData where
  email : Option String
  location : Option String
  deriving DecidableEq, Repr

/-- Everything observable about one `/alert` invocation: the HTTP response,
the `notifications` table after the call, and how often each collaborator
was invoked (`fetchCalls` counts `get_weather` calls, `sendAttempts` counts
`send_email` calls, `saveAttempts` counts `save_notification` calls,
`delivered` counts emails actually transmitted by SMTP). -/
structure AlertOutcome where
  response : AlertResponse
  store : List NotificationRecord
  fetchCalls : Nat
  sendAttempts : Nat
  saveAttempts : Nat
  delivered : Nat
  deriving Repr

/-- The response mapping of the exception handlers of the route for an exception
raised while extracting forecast fields: the inner `except KeyError` returns
400 "Bad request, missing key in weather data"; `IndexError` matches no
inner handler and reaches the outer `except Exception`, 500
"Internal server error". -/
def extractErrResponse : ExtractErr → AlertResponse
  | .missingKey _ => .failure 400 "Bad request, missing key in weather data"
  | .indexOutOfRange => .failure 500 "Internal server error"

/-- The `/alert` route handler (`app/routes/alert.py`), translated statement
by statement.  `validEmail` is the oracle for `email_validator.validate_email`
(`false` means the library raises `EmailNotValidError`); `http` is the
weather provider; `smtpOk`/`dbOk` are the SMTP and SQLite oracles; `store`
is the `notifications` table before the call and `now` the insertion
timestamp.  Control flow of the source: read `data["email"]` and
`data["location"]` (a missing key raises `KeyError`, caught by the outer
handler as 400 "Bad request, missing key"); validate the email (400
"Invalid email address"); fetch the weather and take `if not weather:`
(falsy for both `None` and the empty object) to 500
"Failed to fetch weather data"; extract the condition of the first forecast
day;
if the code is in the severe list, send the email and save the record (both
adapters swallow their own failures); finally return the success JSON. -/
def alert (validEmail : String → Bool) (http : WeatherQuery → FetchOutcome)
    (smtpOk dbOk : Bool) (store : List NotificationRecord) (now : Nat)
    (data : AlertRequestData) : AlertOutcome :=
  match data.email with
  | none => ⟨.failure 400 "Bad request, missing key", store, 0, 0, 0, 0⟩
  | some email =>
    match data.location with
    | none => ⟨.failure 400 "Bad request, missing key", store, 0, 0, 0, 0⟩
    | some location =>
      if validEmail email then
        match get_weather http location with
        | .failed =>
          ⟨.failure 500 "Failed to fetch weather data", store, 1, 0, 0, 0⟩
        | .emptyBody =>
          ⟨.failure 500 "Failed to fetch weather data", store, 1, 0, 0, 0⟩
        | .payload w =>
          match extractForecast w with
          | .error e => ⟨extractErrResponse e, store, 1, 0, 0, 0⟩
          | .ok (weather_condition, forecast_code) =>
            if forecast_code ∈ SEVERE_CODES then
              let sent := send_email smtpOk email emailSubject
                (emailBody weather_condition)
              let saved := save_notification dbOk store now email location
                weather_condition
              ⟨.success forecast_code weather_condition true, saved.2, 1, 1, 1,
                if sent.2 then 1 else 0⟩
            else
              ⟨.success forecast_code weather_condition false, store, 1, 0, 0, 0⟩
      else ⟨.failure 400 "Invalid email address", store, 0, 0, 0, 0⟩

/-- A row as returned by the history query: the projection
`SELECT location, forecast, sent_at` of the source made into the dicts of the
JSON response. -/
structure NotificationView where
  location : String
  forecast : String
  sent_at : Nat
  deriving DecidableEq, Repr

/-- The ordering of the history query clause `ORDER BY sent_at DESC`: descending
timestamps. -/
def notifOrder (a b : NotificationRecord) : Prop :=
  b.sent_at ≤ a.sent_at

instance : DecidableRel notifOrder := fun a b => Nat.decLe _ _

instance : IsTotal NotificationRecord notifOrder :=
  ⟨fun a b => by unfold notifOrder; exact (Nat.le_total a.sent_at b.sent_at).symm⟩

instance : IsTrans NotificationRecord notifOrder :=
  ⟨fun a b c h h' => by unfold notifOrder at *; exact Nat.le_trans h' h⟩

/-- Models `get_notifications_by_email(email)` (`db_service.py`): runs
`SELECT location, forecast, sent_at FROM notifications WHERE email = ?
ORDER BY sent_at DESC` and converts the rows to dicts.  The SQL `WHERE` and
`ORDER BY` are modelled by a filter and a sort descending by `sent_at`.
`sqlite3.Error` (oracle `dbOk = false`) is caught, printed, and masked by
`return []`. -/
def get_notifications_by_email (dbOk : Bool) (store : List NotificationRecord)
    (email : String) : List NotificationView :=
  if dbOk then
    (List.insertionSort notifOrder (store.filter fun r => r.email == email)).map
      fun r => ⟨r.location, r.forecast, r.sent_at⟩
  else []

/-- The JSON body of a response of the `/notifications` route: the success
body wrapping the list, or an error body with its HTTP status. -/
inductive NotificationsResponse where
  | ok (notifications : List NotificationView)
  | failure (status : Nat) (error : String)
  deriving DecidableEq, Repr

/-- The `/notifications` route handler (`app/routes/notifications.py`):
`request.args.get("email")` is `None` when absent, and `if not email:` also
takes the empty string (falsy) to 400 "Email parameter is required";
otherwise the result of `get_notifications_by_email` is wrapped in the
success JSON. -/
def get_notifications (dbOk : Bool) (store : List NotificationRecord)
    (emailParam : Option String) : NotificationsResponse :=
  match emailParam with
  | none => .failure 400 "Email parameter is required"
  | some email =>
    if email = "" then .failure 400 "Email parameter is required"
    else .ok (get_notifications_by_email dbOk store email)

end WeatherAlert

namespace WeatherAlert

/-- The complete list of error bodies the `/alert` route can produce: the two
request-validation errors, the fetch-unavailability error, and the two
extraction errors.  No message about dispatch or persistence appears: those
failures are swallowed inside their adapters. -/
def alertErrorMessages : List String :=
  ["Bad request, missing key", "Invalid email address",
   "Failed to fetch weather data", "Bad request, missing key in weather data",
   "Internal server error"]

/-- An email-validation oracle that accepts every address (the
`email_validator` library raising on none of the tested inputs). -/
def anyEmailOk : String → Bool := fun _ => true

/-- A first forecast day with condition text "Lluvia" and severe code 1186. -/
def severeDayEntry : ForecastDayEntry :=
  ⟨some ⟨some ⟨some "Lluvia", some 1186⟩⟩⟩

/-- A forecast day with condition text "Soleado" and non-severe code 1000. -/
def calmDayEntry : ForecastDayEntry :=
  ⟨some ⟨some ⟨some "Soleado", some 1000⟩⟩⟩

/-- A well-formed provider payload whose first forecast day is severe. -/
def severePayload : WeatherPayload := ⟨some ⟨some [severeDayEntry]⟩⟩

/-- A well-formed provider payload whose first forecast day is calm. -/
def calmPayload : WeatherPayload := ⟨some ⟨some [calmDayEntry]⟩⟩

/-- A second severe payload with the same code 1186 but a different
condition text. -/
def severePayload2 : WeatherPayload :=
  ⟨some ⟨some [⟨some ⟨some ⟨some "Aguacero", some 1186⟩⟩⟩]⟩⟩

/-- A syntactically well-formed alert request body. -/
def exampleRequest : AlertRequestData := ⟨some "a@b.com", some "Bogotá"⟩


theorem alert_severe_spec (v : String → Bool) (http : WeatherQuery → FetchOutcome)
    (smtpOk dbOk : Bool) (store : List NotificationRecord) (now : Nat)
    (email location : String) (w : WeatherPayload) (text : String) (code : Int)
    (hv : v email = true) (hw : http (weatherQuery location) = .payload w)
    (hx : extractForecast w = .ok (text, code)) (hs : code ∈ SEVERE_CODES) :
    alert v http smtpOk dbOk store now ⟨some email, some location⟩ =
      ⟨.success code text true,
       if dbOk then store ++ [⟨email, location, text, now⟩] else store,
       1, 1, 1, if smtpOk then 1 else 0⟩ := by
  unfold alert get_weather
  simp only [hv, if_true, hw, hx, hs, if_pos, send_email, save_notification]

theorem alert_calm_spec (v : String → Bool) (http : WeatherQuery → FetchOutcome)
    (smtpOk dbOk : Bool) (store : List NotificationRecord) (now : Nat)
    (email location : String) (w : WeatherPayload) (text : String) (code : Int)
    (hv : v email = true) (hw : http (weatherQuery location) = .payload w)
    (hx : extractForecast w = .ok (text, code)) (hs : code ∉ SEVERE_CODES) :
    alert v http smtpOk dbOk store now ⟨some email, some location⟩ =
      ⟨.success code text false, store, 1, 0, 0, 0⟩ := by
  unfold alert get_weather
  simp only [hv, if_true, hw, hx]
  rw [if_neg hs]


theorem alert_noEmail_spec (v : String → Bool) (http : WeatherQuery → FetchOutcome)
    (s d : Bool) (store : List NotificationRecord) (now : Nat)
    (lOpt : Option String) :
    alert v http s d store now ⟨none, lOpt⟩ =
      ⟨.failure 400 "Bad request, missing key", store, 0, 0, 0, 0⟩ := rfl

theorem alert_noLocation_spec (v : String → Bool) (http : WeatherQuery → FetchOutcome)
    (s d : Bool) (store : List NotificationRecord) (now : Nat) (email : String) :
    alert v http s d store now ⟨some email, none⟩ =
      ⟨.failure 400 "Bad request, missing key", store, 0, 0, 0, 0⟩ := rfl

theorem alert_invalidEmail_spec (v : String → Bool) (http : WeatherQuery → FetchOutcome)
    (s d : Bool) (store : List NotificationRecord) (now : Nat)
    (email location : String) (hv : v email = false) :
    alert v http s d store now ⟨some email, some location⟩ =
      ⟨.failure 400 "Invalid email address", store, 0, 0, 0, 0⟩ := by
  unfold alert
  simp [hv]

theorem alert_unavailable_spec (v : String → Bool) (http : WeatherQuery → FetchOutcome)
    (s d : Bool) (store : List NotificationRecord) (now : Nat)
    (email location : String) (hv : v email = true)
    (hw : http (weatherQuery location) = .failed) :
    alert v http s d store now ⟨some email, some location⟩ =
      ⟨.failure 500 "Failed to fetch weather data", store, 1, 0, 0, 0⟩ := by
  unfold alert get_weather
  simp [hv, hw]

theorem alert_emptyBody_spec (v : String → Bool) (http : WeatherQuery → FetchOutcome)
    (s d : Bool) (store : List NotificationRecord) (now : Nat)
    (email location : String) (hv : v email = true)
    (hw : http (weatherQuery location) = .emptyBody) :
    alert v http s d store now ⟨some email, some location⟩ =
      ⟨.failure 500 "Failed to fetch weather data", store, 1, 0, 0, 0⟩ := by
  unfold alert get_weather
  simp [hv, hw]

theorem alert_malformed_spec (v : String → Bool) (http : WeatherQuery → FetchOutcome)
    (s d : Bool) (store : List NotificationRecord) (now : Nat)
    (email location : String) (w : WeatherPayload) (e : ExtractErr)
    (hv : v email = true) (hw : http (weatherQuery location) = .payload w)
    (hx : extractForecast w = .error e) :
    alert v http s d store now ⟨some email, some location⟩ =
      ⟨extractErrResponse e, store, 1, 0, 0, 0⟩ := by
  unfold alert get_weather
  simp [hv, hw, hx]

theorem alert_response_indep (v : String → Bool) (http : WeatherQuery → FetchOutcome)
    (s d s' d' : Bool) (store store' : List NotificationRecord) (now now' : Nat)
    (data : AlertRequestData) :
    (alert v http s d store now data).response =
      (alert v http s' d' store' now' data).response := by
  obtain ⟨eOpt, lOpt⟩ := data
  cases eOpt with
  | none => rw [alert_noEmail_spec, alert_noEmail_spec]
  | some email =>
    cases lOpt with
    | none => rw [alert_noLocation_spec, alert_noLocation_spec]
    | some location =>
      cases hv : v email with
      | false =>
        rw [alert_invalidEmail_spec v http s d store now email location hv,
          alert_invalidEmail_spec v http s' d' store' now' email location hv]
      | true =>
        cases hw : http (weatherQuery location) with
        | failed =>
          rw [alert_unavailable_spec v http s d store now email location hv hw,
            alert_unavailable_spec v http s' d' store' now' email location hv hw]
        | emptyBody =>
          rw [alert_emptyBody_spec v http s d store now email location hv hw,
            alert_emptyBody_spec v http s' d' store' now' email location hv hw]
        | payload w =>
          cases hx : extractForecast w with
          | error e =>
            rw [alert_malformed_spec v http s d store now email location w e hv hw hx,
              alert_malformed_spec v http s' d' store' now' email location w e hv hw hx]
          | ok p =>
            obtain ⟨text, code⟩ := p
            by_cases hs : code ∈ SEVERE_CODES
            · rw [alert_severe_spec v http s d store now email location w text code hv hw hx hs,
                alert_severe_spec v http s' d' store' now' email location w text code hv hw hx hs]
            · rw [alert_calm_spec v http s d store now email location w text code hv hw hx hs,
                alert_calm_spec v http s' d' store' now' email location w text code hv hw hx hs]

theorem alert_success_notified (v : String → Bool) (http : WeatherQuery → FetchOutcome)
    (s d : Bool) (store : List NotificationRecord) (now : Nat)
    (data : AlertRequestData) (c : Int) (t : String) (n : Bool)
    (h : (alert v http s d store now data).response = .success c t n) :
    n = decide (c ∈ SEVERE_CODES) := by
  obtain ⟨eOpt, lOpt⟩ := data
  cases eOpt with
  | none => rw [alert_noEmail_spec] at h; exact absurd h (by simp)
  | some email =>
    cases lOpt with
    | none => rw [alert_noLocation_spec] at h; exact absurd h (by simp)
    | some location =>
      cases hv : v email with
      | false =>
        rw [alert_invalidEmail_spec v http s d store now email location hv] at h
        exact absurd h (by simp)
      | true =>
        cases hw : http (weatherQuery location) with
        | failed =>
          rw [alert_unavailable_spec v http s d store now email location hv hw] at h
          exact absurd h (by simp)
        | emptyBody =>
          rw [alert_emptyBody_spec v http s d store now email location hv hw] at h
          exact absurd h (by simp)
        | payload w =>
          cases hx : extractForecast w with
          | error e =>
            rw [alert_malformed_spec v http s d store now email location w e hv hw hx] at h
            cases e <;> exact absurd h (by simp [extractErrResponse])
          | ok p =>
            obtain ⟨text, code⟩ := p
            by_cases hs : code ∈ SEVERE_CODES
            · rw [alert_severe_spec v http s d store now email location w text code hv hw hx hs] at h
              simp only [AlertResponse.success.injEq] at h
              obtain ⟨hc, _, hn⟩ := h
              subst hc
              simp [hs, hn.symm]
            · rw [alert_calm_spec v http s d store now email location w text code hv hw hx hs] at h
              simp only [AlertResponse.success.injEq] at h
              obtain ⟨hc, _, hn⟩ := h
              subst hc
              simp [hs, hn.symm]


theorem alert_failure_messages (v : String → Bool) (http : WeatherQuery → FetchOutcome)
    (s d : Bool) (store : List NotificationRecord) (now : Nat)
    (data : AlertRequestData) (status : Nat) (msg : String)
    (h : (alert v http s d store now data).response = .failure status msg) :
    msg ∈ alertErrorMessages := by
  obtain ⟨eOpt, lOpt⟩ := data
  cases eOpt with
  | none =>
    rw [alert_noEmail_spec] at h
    simp only [AlertResponse.failure.injEq] at h
    simp [alertErrorMessages, h.2.symm]
  | some email =>
    cases lOpt with
    | none =>
      rw [alert_noLocation_spec] at h
      simp only [AlertResponse.failure.injEq] at h
      simp [alertErrorMessages, h.2.symm]
    | some location =>
      cases hv : v email with
      | false =>
        rw [alert_invalidEmail_spec v http s d store now email location hv] at h
        simp only [AlertResponse.failure.injEq] at h
        simp [alertErrorMessages, h.2.symm]
      | true =>
        cases hw : http (weatherQuery location) with
        | failed =>
          rw [alert_unavailable_spec v http s d store now email location hv hw] at h
          simp only [AlertResponse.failure.injEq] at h
          simp [alertErrorMessages, h.2.symm]
        | emptyBody =>
          rw [alert_emptyBody_spec v http s d store now email location hv hw] at h
          simp only [AlertResponse.failure.injEq] at h
          simp [alertErrorMessages, h.2.symm]
        | payload w =>
          cases hx : extractForecast w with
          | error e =>
            rw [alert_malformed_spec v http s d store now email location w e hv hw hx] at h
            cases e <;>
              simp only [extractErrResponse, AlertResponse.failure.injEq] at h <;>
              simp [alertErrorMessages, h.2.symm]
          | ok p =>
            obtain ⟨text, code⟩ := p
            by_cases hs : code ∈ SEVERE_CODES
            · rw [alert_severe_spec v http s d store now email location w text code hv hw hx hs] at h
              exact absurd h (by simp)
            · rw [alert_calm_spec v http s d store now email location w text code hv hw hx hs] at h
              exact absurd h (by simp)

/-- Claim C1 counterexample: a severe forecast (code 1186) with the SMTP dispatch
failing and the database healthy — the route still appends the
NotificationRecord and still answers `buyer_notification = true` with no
error, so the claimed `notified = false` with a DispatchError and no record
all fail on the code. -/
theorem c1_counterexample :
    (alert anyEmailOk (fun _ => .payload severePayload) false true [] 0
        exampleRequest).store = [⟨"a@b.com", "Bogotá", "Lluvia", 0⟩] ∧
    (alert anyEmailOk (fun _ => .payload severePayload) false true [] 0
        exampleRequest).response = .success 1186 "Lluvia" true ∧
    (alert anyEmailOk (fun _ => .payload severePayload) false true [] 0
        exampleRequest).delivered = 0 := by
  refine ⟨by decide, by decide, by decide⟩

/-- Claim C1 (amended): when the decision is to notify and the SMTP dispatch fails,
`send_email` swallows the failure, so the pipeline continues: a
NotificationRecord is appended exactly when the database insert succeeds, the
response reports `buyer_notification = true`, and no dispatch error is
surfaced; no email was actually delivered.  A record therefore witnesses the
decision plus a successful insert, not a successfully dispatched message. -/
theorem c1_dispatch_failure_swallowed (v : String → Bool)
    (http : WeatherQuery → FetchOutcome) (dbOk : Bool)
    (store : List NotificationRecord) (now : Nat) (email location : String)
    (w : WeatherPayload) (text : String) (code : Int)
    (hv : v email = true) (hw : http (weatherQuery location) = .payload w)
    (hx : extractForecast w = .ok (text, code)) (hs : code ∈ SEVERE_CODES) :
    (alert v http false dbOk store now ⟨some email, some location⟩).response =
        .success code text true ∧
    (alert v http false dbOk store now ⟨some email, some location⟩).store =
        (if dbOk then store ++ [⟨email, location, text, now⟩] else store) ∧
    (alert v http false dbOk store now ⟨some email, some location⟩).delivered = 0 := by
  rw [alert_severe_spec v http false dbOk store now email location w text code hv hw hx hs]
  exact ⟨rfl, rfl, rfl⟩

/-- Claim C1 witness: the amended theorem applied at a concrete severe run with the
dispatch failing and the insert failing too. -/
theorem c1_witness :
    (alert anyEmailOk (fun _ => .payload severePayload) false false [] 0
        ⟨some "a@b.com", some "Bogotá"⟩).response = .success 1186 "Lluvia" true ∧
    (alert anyEmailOk (fun _ => .payload severePayload) false false [] 0
        ⟨some "a@b.com", some "Bogotá"⟩).store =
      (if false then [] ++ [⟨"a@b.com", "Bogotá", "Lluvia", 0⟩] else
        ([] : List NotificationRecord)) ∧
    (alert anyEmailOk (fun _ => .payload severePayload) false false [] 0
        ⟨some "a@b.com", some "Bogotá"⟩).delivered = 0 :=
  c1_dispatch_failure_swallowed anyEmailOk (fun _ => .payload severePayload)
    false [] 0 "a@b.com" "Bogotá" severePayload "Lluvia" 1186 rfl rfl rfl
    (by decide)

/-- Claim C2 counterexample: dispatch succeeds and the insert fails; the response is
the plain success body — identical to the response when the insert succeeds —
so no StorageError or any secondary diagnostic is surfaced alongside the
success. -/
theorem c2_counterexample :
    (alert anyEmailOk (fun _ => .payload severePayload) true false [] 0
        exampleRequest).response = .success 1186 "Lluvia" true ∧
    (alert anyEmailOk (fun _ => .payload severePayload) true false [] 0
        exampleRequest).response =
      (alert anyEmailOk (fun _ => .payload severePayload) true true [] 0
        exampleRequest).response := by
  refine ⟨by decide, by decide⟩

/-- Claim C2 (amended): when dispatch succeeds but the insert fails,
`save_notification` swallows the sqlite error: the response still reports
`buyer_notification = true`, no record is appended, and no storage error is
surfaced — the response is indistinguishable from the fully successful run;
the failure is only printed to the server log. -/
theorem c2_persistence_failure_silent (v : String → Bool)
    (http : WeatherQuery → FetchOutcome)
    (store : List NotificationRecord) (now : Nat) (email location : String)
    (w : WeatherPayload) (text : String) (code : Int)
    (hv : v email = true) (hw : http (weatherQuery location) = .payload w)
    (hx : extractForecast w = .ok (text, code)) (hs : code ∈ SEVERE_CODES) :
    (alert v http true false store now ⟨some email, some location⟩).response =
        .success code text true ∧
    (alert v http true false store now ⟨some email, some location⟩).store = store ∧
    (alert v http true false store now ⟨some email, some location⟩).response =
      (alert v http true true store now ⟨some email, some location⟩).response := by
  rw [alert_severe_spec v http true false store now email location w text code hv hw hx hs,
    alert_severe_spec v http true true store now email location w text code hv hw hx hs]
  exact ⟨rfl, rfl, rfl⟩

/-- Claim C2 witness: the amended theorem applied at a concrete severe run with the
dispatch succeeding and the insert failing. -/
theorem c2_witness :
    (alert anyEmailOk (fun _ => .payload severePayload) true false [] 0
        ⟨some "a@b.com", some "Bogotá"⟩).response = .success 1186 "Lluvia" true ∧
    (alert anyEmailOk (fun _ => .payload severePayload) true false [] 0
        ⟨some "a@b.com", some "Bogotá"⟩).store = ([] : List NotificationRecord) ∧
    (alert anyEmailOk (fun _ => .payload severePayload) true false [] 0
        ⟨some "a@b.com", some "Bogotá"⟩).response =
      (alert anyEmailOk (fun _ => .payload severePayload) true true [] 0
        ⟨some "a@b.com", some "Bogotá"⟩).response :=
  c2_persistence_failure_silent anyEmailOk (fun _ => .payload severePayload)
    [] 0 "a@b.com" "Bogotá" severePayload "Lluvia" 1186 rfl rfl rfl (by decide)

/-- Claim C3: on the decision path the notify flag is exactly membership of the
forecast condition code in SEVERE_CODES, and for a non-severe code the route
makes no dispatch call and no persistence call and returns the success body
with `buyer_notification = false` and the store untouched. -/
theorem c3_severity_policy (v : String → Bool)
    (http : WeatherQuery → FetchOutcome) (smtpOk dbOk : Bool)
    (store : List NotificationRecord) (now : Nat) (email location : String)
    (w : WeatherPayload) (text : String) (code : Int)
    (hv : v email = true) (hw : http (weatherQuery location) = .payload w)
    (hx : extractForecast w = .ok (text, code)) :
    (alert v http smtpOk dbOk store now ⟨some email, some location⟩).response =
        .success code text (decide (code ∈ SEVERE_CODES)) ∧
    (code ∉ SEVERE_CODES →
      alert v http smtpOk dbOk store now ⟨some email, some location⟩ =
        ⟨.success code text false, store, 1, 0, 0, 0⟩) := by
  by_cases hs : code ∈ SEVERE_CODES
  · rw [alert_severe_spec v http smtpOk dbOk store now email location w text code hv hw hx hs]
    exact ⟨by simp [hs], fun hn => absurd hs hn⟩
  · rw [alert_calm_spec v http smtpOk dbOk store now email location w text code hv hw hx hs]
    exact ⟨by simp [hs], fun _ => rfl⟩

/-- Claim C3 witness: the theorem applied at a concrete calm run (code 1000), with
the non-membership discharged, showing the full outcome. -/
theorem c3_witness :
    (alert anyEmailOk (fun _ => .payload calmPayload) true true [] 0
        ⟨some "a@b.com", some "Bogotá"⟩).response =
      .success 1000 "Soleado" (decide ((1000 : Int) ∈ SEVERE_CODES)) ∧
    alert anyEmailOk (fun _ => .payload calmPayload) true true [] 0
        ⟨some "a@b.com", some "Bogotá"⟩ =
      ⟨.success 1000 "Soleado" false, [], 1, 0, 0, 0⟩ :=
  ⟨(c3_severity_policy anyEmailOk (fun _ => .payload calmPayload) true true [] 0
      "a@b.com" "Bogotá" calmPayload "Soleado" 1000 rfl rfl rfl).1,
   (c3_severity_policy anyEmailOk (fun _ => .payload calmPayload) true true [] 0
      "a@b.com" "Bogotá" calmPayload "Soleado" 1000 rfl rfl rfl).2 (by decide)⟩


/-- Claim C4 counterexample: a request with a valid email and an EMPTY (but present)
location is not rejected by validation — the forecast fetch is performed
(one call, not zero) and the result is the fetch-failure error, not a
validation error. -/
theorem c4_counterexample :
    (alert anyEmailOk (fun _ => .failed) true true [] 0
        ⟨some "a@b.com", some ""⟩).fetchCalls = 1 ∧
    (alert anyEmailOk (fun _ => .failed) true true [] 0
        ⟨some "a@b.com", some ""⟩).response =
      .failure 500 "Failed to fetch weather data" := by
  refine ⟨by decide, by decide⟩

/-- Claim C4 (amended): a syntactically invalid email yields the validation error
with zero fetch calls, and an absent email or location key yields the
missing-key error with zero fetch calls — but an empty string location is
never validated: the route proceeds to fetch the forecast for it. -/
theorem c4_validation_before_fetch (v : String → Bool)
    (http : WeatherQuery → FetchOutcome) (smtpOk dbOk : Bool)
    (store : List NotificationRecord) (now : Nat) :
    (∀ email location, v email = false →
      alert v http smtpOk dbOk store now ⟨some email, some location⟩ =
        ⟨.failure 400 "Invalid email address", store, 0, 0, 0, 0⟩) ∧
    (∀ lOpt, alert v http smtpOk dbOk store now ⟨none, lOpt⟩ =
        ⟨.failure 400 "Bad request, missing key", store, 0, 0, 0, 0⟩) ∧
    (∀ email, alert v http smtpOk dbOk store now ⟨some email, none⟩ =
        ⟨.failure 400 "Bad request, missing key", store, 0, 0, 0, 0⟩) :=
  ⟨fun email location hv =>
      alert_invalidEmail_spec v http smtpOk dbOk store now email location hv,
   fun lOpt => alert_noEmail_spec v http smtpOk dbOk store now lOpt,
   fun email => alert_noLocation_spec v http smtpOk dbOk store now email⟩

/-- Claim C4 witness: the amended theorem applied to a rejecting validator and the
address "not-an-email": validation error, zero collaborator calls. -/
theorem c4_witness :
    alert (fun _ => false) (fun _ => .failed) true true [] 0
        ⟨some "not-an-email", some "Bogotá"⟩ =
      ⟨.failure 400 "Invalid email address", [], 0, 0, 0, 0⟩ :=
  (c4_validation_before_fetch (fun _ => false) (fun _ => .failed)
      true true [] 0).1 "not-an-email" "Bogotá" rfl

/-- Claim C5 counterexample: the store holds a record for the queried email, the
underlying read fails, and the history query answers the plain success body
with an empty list — the failure is masked, not surfaced as a storage
error. -/
theorem c5_counterexample :
    get_notifications false [⟨"a@b.com", "Bogotá", "Lluvia", 3⟩]
      (some "a@b.com") = .ok [] := by decide

/-- Claim C5 (amended): `get_notifications_by_email` catches `sqlite3.Error`,
prints it, and returns the empty list, so on any store-read failure the
history route returns the success body with an empty notification list —
indistinguishable from an email with no history; no storage error reaches
the caller. -/
theorem c5_store_failure_masked (store : List NotificationRecord)
    (email : String) (h : email ≠ "") :
    get_notifications false store (some email) = .ok [] := by
  simp only [get_notifications]
  rw [if_neg h]
  rfl

/-- Claim C5 witness: the amended theorem applied to a concrete non-empty store and
a concrete email. -/
theorem c5_witness :
    get_notifications false
      [⟨"a@b.com", "Bogotá", "Lluvia", 3⟩, ⟨"c@d.com", "Cali", "Sol", 9⟩]
      (some "c@d.com") = .ok [] :=
  c5_store_failure_masked
    [⟨"a@b.com", "Bogotá", "Lluvia", 3⟩, ⟨"c@d.com", "Cali", "Sol", 9⟩]
    "c@d.com" (by decide)

/-- Claim C6: for a non-empty email query parameter and a healthy store, the
history route answers 200 with exactly that email rows, ordered descending
by sent_at; an email with no rows gets the empty list, still a success. -/
theorem c6_history_query (store : List NotificationRecord) (email : String)
    (h : email ≠ "") :
    get_notifications true store (some email) =
      .ok (get_notifications_by_email true store email) ∧
    (get_notifications_by_email true store email).Pairwise
      (fun a b : NotificationView => b.sent_at ≤ a.sent_at) ∧
    List.Perm (get_notifications_by_email true store email)
      ((store.filter fun r => r.email == email).map
        fun r => ⟨r.location, r.forecast, r.sent_at⟩) ∧
    ((∀ r ∈ store, r.email ≠ email) → get_notifications_by_email true store email = []) := by
  refine ⟨?_, ?_, ?_, ?_⟩
  · simp only [get_notifications]
    rw [if_neg h]
  · unfold get_notifications_by_email
    simp only [if_true]
    refine List.Pairwise.map _ ?_
      (List.sorted_insertionSort notifOrder (store.filter fun r => r.email == email))
    intro a b hab
    exact hab
  · unfold get_notifications_by_email
    simp only [if_true]
    exact List.Perm.map _ (List.perm_insertionSort notifOrder _)
  · intro hnone
    unfold get_notifications_by_email
    simp only [if_true]
    have hf : store.filter (fun r => r.email == email) = [] := by
      rw [List.filter_eq_nil_iff]
      intro r hr
      simpa using hnone r hr
    rw [hf]
    rfl


/-- Claim C6 witness: the theorem applied at a concrete store with three rows, two
of them for the queried email, together with the concrete evaluation of the
query showing the rows come back newest-first. -/
theorem c6_witness :
    get_notifications_by_email true
        [⟨"a@b.com", "Bogotá", "Lluvia", 3⟩, ⟨"c@d.com", "Cali", "Sol", 9⟩,
         ⟨"a@b.com", "Cali", "Tormenta", 7⟩] "a@b.com" =
      [⟨"Cali", "Tormenta", 7⟩, ⟨"Bogotá", "Lluvia", 3⟩] ∧
    get_notifications true
        [⟨"a@b.com", "Bogotá", "Lluvia", 3⟩, ⟨"c@d.com", "Cali", "Sol", 9⟩,
         ⟨"a@b.com", "Cali", "Tormenta", 7⟩] (some "a@b.com") =
      .ok (get_notifications_by_email true
        [⟨"a@b.com", "Bogotá", "Lluvia", 3⟩, ⟨"c@d.com", "Cali", "Sol", 9⟩,
         ⟨"a@b.com", "Cali", "Tormenta", 7⟩] "a@b.com") ∧
    (get_notifications_by_email true
        [⟨"a@b.com", "Bogotá", "Lluvia", 3⟩, ⟨"c@d.com", "Cali", "Sol", 9⟩,
         ⟨"a@b.com", "Cali", "Tormenta", 7⟩] "a@b.com").Pairwise
      (fun a b : NotificationView => b.sent_at ≤ a.sent_at) :=
  ⟨by decide,
   (c6_history_query
      [⟨"a@b.com", "Bogotá", "Lluvia", 3⟩, ⟨"c@d.com", "Cali", "Sol", 9⟩,
       ⟨"a@b.com", "Cali", "Tormenta", 7⟩] "a@b.com" (by decide)).1,
   (c6_history_query
      [⟨"a@b.com", "Bogotá", "Lluvia", 3⟩, ⟨"c@d.com", "Cali", "Sol", 9⟩,
       ⟨"a@b.com", "Cali", "Tormenta", 7⟩] "a@b.com" (by decide)).2.1⟩

/-- Claim C7 counterexample: a successful fetch whose body is the empty JSON object
is a payload missing every expected forecast field, yet the falsy
test of the route classifies it exactly as unavailability: its response equals the
response of a genuinely failed fetch, so no distinct malformed-payload error
is produced for it. -/
theorem c7_counterexample :
    (alert anyEmailOk (fun _ => .emptyBody) true true [] 0
        exampleRequest).response = .failure 500 "Failed to fetch weather data" ∧
    (alert anyEmailOk (fun _ => .failed) true true [] 0
        exampleRequest).response = .failure 500 "Failed to fetch weather data" := by
  refine ⟨by decide, by decide⟩

/-- Claim C7 (amended): for a successful fetch whose payload is a NON-empty object
missing expected forecast fields, extraction raises and the route answers an
error distinct from the unavailability response (400 missing-key for a
`KeyError`, 500 internal for the `IndexError` of an empty `forecastday`
array), with no dispatch attempt, no persistence attempt, and the store
untouched; the empty-object payload, however, is classified as
unavailability itself. -/
theorem c7_malformed_aborts (v : String → Bool)
    (http : WeatherQuery → FetchOutcome) (smtpOk dbOk : Bool)
    (store : List NotificationRecord) (now : Nat) (email location : String)
    (w : WeatherPayload) (e : ExtractErr)
    (hv : v email = true) (hw : http (weatherQuery location) = .payload w)
    (hx : extractForecast w = .error e) :
    alert v http smtpOk dbOk store now ⟨some email, some location⟩ =
      ⟨extractErrResponse e, store, 1, 0, 0, 0⟩ ∧
    extractErrResponse e ≠ .failure 500 "Failed to fetch weather data" := by
  refine ⟨alert_malformed_spec v http smtpOk dbOk store now email location w e hv hw hx, ?_⟩
  cases e <;> simp [extractErrResponse]

/-- Claim C7 witness: the amended theorem applied to a concrete payload whose
`forecast` object lacks the `forecastday` key. -/
theorem c7_witness :
    alert anyEmailOk (fun _ => .payload ⟨some ⟨none⟩⟩) true true [] 0
        ⟨some "a@b.com", some "Bogotá"⟩ =
      ⟨extractErrResponse (.missingKey "forecastday"), [], 1, 0, 0, 0⟩ ∧
    extractErrResponse (.missingKey "forecastday") ≠
      .failure 500 "Failed to fetch weather data" :=
  c7_malformed_aborts anyEmailOk (fun _ => .payload ⟨some ⟨none⟩⟩) true true
    [] 0 "a@b.com" "Bogotá" ⟨some ⟨none⟩⟩ (.missingKey "forecastday") rfl rfl rfl

/-- Claim C8: the query built for the provider requests a two-day window
(`days=2`); extraction reads only the first entry of the `forecastday`
array, the later days being irrelevant; and the extracted condition code and
text pass through unchanged into the `forecast_code` and
`forecast_description` fields of the success body. -/
theorem c8_first_day_passthrough (v : String → Bool)
    (http : WeatherQuery → FetchOutcome) (smtpOk dbOk : Bool)
    (store : List NotificationRecord) (now : Nat) (email location : String)
    (w : WeatherPayload) (text : String) (code : Int)
    (hv : v email = true) (hw : http (weatherQuery location) = .payload w)
    (hx : extractForecast w = .ok (text, code)) :
    (weatherQuery location).days = 2 ∧
    (∀ (d : ForecastDayEntry) (rest rest' : List ForecastDayEntry),
      extractForecast ⟨some ⟨some (d :: rest)⟩⟩ =
        extractForecast ⟨some ⟨some (d :: rest')⟩⟩) ∧
    (alert v http smtpOk dbOk store now ⟨some email, some location⟩).response =
      .success code text (decide (code ∈ SEVERE_CODES)) := by
  refine ⟨rfl, fun d rest rest' => rfl, ?_⟩
  by_cases hs : code ∈ SEVERE_CODES
  · rw [alert_severe_spec v http smtpOk dbOk store now email location w text code hv hw hx hs]
    simp [hs]
  · rw [alert_calm_spec v http smtpOk dbOk store now email location w text code hv hw hx hs]
    simp [hs]

/-- Claim C8 witness: the theorem applied at a concrete severe run, with the
first-day irrelevance instantiated at a two-day payload whose second day is
dropped. -/
theorem c8_witness :
    (weatherQuery "Bogotá").days = 2 ∧
    extractForecast ⟨some ⟨some (severeDayEntry :: [calmDayEntry])⟩⟩ =
      extractForecast ⟨some ⟨some (severeDayEntry :: [])⟩⟩ ∧
    (alert anyEmailOk (fun _ => .payload severePayload) true true [] 0
        ⟨some "a@b.com", some "Bogotá"⟩).response =
      .success 1186 "Lluvia" (decide ((1186 : Int) ∈ SEVERE_CODES)) :=
  ⟨(c8_first_day_passthrough anyEmailOk (fun _ => .payload severePayload)
      true true [] 0 "a@b.com" "Bogotá" severePayload "Lluvia" 1186
      rfl rfl rfl).1,
   (c8_first_day_passthrough anyEmailOk (fun _ => .payload severePayload)
      true true [] 0 "a@b.com" "Bogotá" severePayload "Lluvia" 1186
      rfl rfl rfl).2.1 severeDayEntry [calmDayEntry] [],
   (c8_first_day_passthrough anyEmailOk (fun _ => .payload severePayload)
      true true [] 0 "a@b.com" "Bogotá" severePayload "Lluvia" 1186
      rfl rfl rfl).2.2⟩


/-- Claim C9: both adapters swallow the failures of their own operation —
`send_email` catches `smtplib.SMTPException` and `save_notification` catches
`sqlite3.Error`, each returning `None` either way — so the caller-visible
return value is identical in success and failure, the response of the route is
identical for every combination of adapter outcomes, and every error body the
route can produce comes from the fixed validation/fetch/extraction list:
no dispatch error and no persistence error can ever be returned. -/
theorem c9_adapters_swallow_failures (v : String → Bool)
    (http : WeatherQuery → FetchOutcome) (s d s' d' : Bool)
    (store : List NotificationRecord) (now : Nat) (data : AlertRequestData) :
    (∀ (smtpOk : Bool) (to_email subject body : String),
      (send_email smtpOk to_email subject body).1 = ()) ∧
    (∀ (dbOk : Bool) (st : List NotificationRecord) (n : Nat) (e l f : String),
      (save_notification dbOk st n e l f).1 = ()) ∧
    (alert v http s d store now data).response =
      (alert v http s' d' store now data).response ∧
    (∀ (status : Nat) (msg : String),
      (alert v http s d store now data).response = .failure status msg →
        msg ∈ alertErrorMessages) :=
  ⟨fun _ _ _ _ => rfl,
   fun _ _ _ _ _ _ => rfl,
   alert_response_indep v http s d s' d' store store now now data,
   fun status msg h =>
     alert_failure_messages v http s d store now data status msg h⟩

/-- Claim C9 witness: the theorem applied at a concrete severe run — the adapters
return the unit value under failure, the response with both adapters failing
equals the response with both succeeding, and the concrete fetch-failure
message is in the fixed list. -/
theorem c9_witness :
    (send_email false "a@b.com" "s" "b").1 = () ∧
    (save_notification false [] 0 "a@b.com" "Bogotá" "Lluvia").1 = () ∧
    (alert anyEmailOk (fun _ => .payload severePayload) false false [] 0
        exampleRequest).response =
      (alert anyEmailOk (fun _ => .payload severePayload) true true [] 0
        exampleRequest).response ∧
    "Failed to fetch weather data" ∈ alertErrorMessages :=
  ⟨(c9_adapters_swallow_failures anyEmailOk (fun _ => .payload severePayload)
      false false true true [] 0 exampleRequest).1 false "a@b.com" "s" "b",
   (c9_adapters_swallow_failures anyEmailOk (fun _ => .payload severePayload)
      false false true true [] 0 exampleRequest).2.1 false [] 0 "a@b.com"
      "Bogotá" "Lluvia",
   (c9_adapters_swallow_failures anyEmailOk (fun _ => .payload severePayload)
      false false true true [] 0 exampleRequest).2.2.1,
   (c9_adapters_swallow_failures anyEmailOk (fun _ => .failed)
      true true true true [] 0 exampleRequest).2.2.2 500
      "Failed to fetch weather data" (by decide)⟩

/-- Claim C10: the notify decision depends only on the integer condition code —
for any two invocations (any validators, providers, adapter outcomes,
stores, timestamps, emails, locations, condition texts) whose success
responses carry the same `forecast_code`, the `buyer_notification` flags are
equal. -/
theorem c10_decision_depends_only_on_code (v1 v2 : String → Bool)
    (http1 http2 : WeatherQuery → FetchOutcome) (s1 d1 s2 d2 : Bool)
    (store1 store2 : List NotificationRecord) (now1 now2 : Nat)
    (data1 data2 : AlertRequestData) (c : Int) (t1 t2 : String) (n1 n2 : Bool)
    (h1 : (alert v1 http1 s1 d1 store1 now1 data1).response = .success c t1 n1)
    (h2 : (alert v2 http2 s2 d2 store2 now2 data2).response = .success c t2 n2) :
    n1 = n2 := by
  rw [alert_success_notified v1 http1 s1 d1 store1 now1 data1 c t1 n1 h1,
    alert_success_notified v2 http2 s2 d2 store2 now2 data2 c t2 n2 h2]

/-- Claim C10 witness: two concrete runs with different emails, locations,
condition texts and adapter outcomes but the same code 1186; the theorem
concludes the equality of their (true) notify flags. -/
theorem c10_witness :
    (alert anyEmailOk (fun _ => .payload severePayload) true true [] 0
        ⟨some "a@b.com", some "Bogotá"⟩).response =
      .success 1186 "Lluvia" true ∧
    (alert (fun e => e == "x@y.com") (fun _ => .payload severePayload2)
        false false [] 9 ⟨some "x@y.com", some "Cali"⟩).response =
      .success 1186 "Aguacero" true ∧
    (true : Bool) = true :=
  ⟨by decide, by decide,
   c10_decision_depends_only_on_code anyEmailOk (fun e => e == "x@y.com")
     (fun _ => .payload severePayload) (fun _ => .payload severePayload2)
     true true false false [] [] 0 9 ⟨some "a@b.com", some "Bogotá"⟩
     ⟨some "x@y.com", some "Cali"⟩ 1186 "Lluvia" "Aguacero" true true
     (by decide) (by decide)⟩

end WeatherAlert
